import Mathlib

/-!
Shallow embedding of the TITAN-X deterministic scoring engines.

The repository contains four near-duplicate scoring engines:
* `GS1.analyzeOne`  — the per-record body of `analyzeStocks`
  (src/services/geminiService.ts, first document, lines 61-117);
* `GS2.analyzeStock` — the body of `analyzeStockWithGemini`
  (src/services/geminiService.ts, second document, lines 159-271);
* `P6A.analyzeOne`  — the per-record body of `analyzeStocks`
  (src/unnamed/part_006, first document, lines 74-137);
* `P6B.analyzeOne`  — the per-record body of `analyzeStocksWithGemini`
  (src/unnamed/part_006, second document, lines 240-319).

JavaScript numbers are modelled as exact rationals (ℚ); the engines only
add, multiply, divide and compare, so ℚ is adequate except that division
by zero yields 0 in ℚ (the claims below never exercise that corner, and
hypotheses exclude it where it could matter).  `Math.sqrt` is modelled by
`Real.sqrt`.  Optional numeric fields are modelled as ℚ with absence
encoded as 0: every read site in the source goes through JavaScript
truthiness (`x || d`, `x ? a : b`), which identifies `undefined` and `0`.
The external generative-model calls are modelled as explicit inputs: a
list of narrative records handed to the engine.
-/

/-- Verdict enumeration from src/types.ts (`TitanVerdict`). -/
inductive TitanVerdict where
  | GOD_MODE_BUY
  | BUY
  | HOLD
  | AVOID
  | DESTROY
deriving DecidableEq, Repr

/-- The display strings attached to each verdict in src/types.ts. -/
def TitanVerdict.label : TitanVerdict → String
  | .GOD_MODE_BUY => "💎 GOD-MODE BUY"
  | .BUY => "✅ BUY"
  | .HOLD => "⚖️ HOLD"
  | .AVOID => "⚠️ AVOID"
  | .DESTROY => "💀 TERMINATE (DESTROY)"

/-- Structure `StockData` from src/types.ts.  Optional numeric fields are ℚ with
absence encoded as 0 (all read sites use JS truthiness, which identifies
`undefined` with `0`); optional strings default to `""`.
`priceToBook` is the `pbRatio` field of the source (renamed here). -/
structure StockData where
  ticker : String := ""
  name : String := ""
  sector : String := ""
  ltp : ℚ := 0
  eps : ℚ := 0
  nav : ℚ := 0
  debt : ℚ := 0
  nocfps : ℚ := 0
  dividendPercent : ℚ := 0
  dividendYield : ℚ := 0
  directorHolding : ℚ := 0
  foreignHolding : ℚ := 0
  category : String := ""
  roe : ℚ := 0
  pe : ℚ := 0
  debtToEquity : ℚ := 0
  priceToBook : ℚ := 0
deriving DecidableEq, Repr

/-- Debt-risk bucket used by the two `analyzeStocks` variants. -/
inductive DebtRisk where
  | LOW
  | MEDIUM
  | HIGH
  | TOXIC
deriving DecidableEq, Repr

/-- The `metrics` sub-object returned by the `analyzeStocks` variants. -/
structure Metrics where
  pe : ℚ
  roe : ℚ
  debtToEquity : ℚ
deriving DecidableEq, Repr

/-- One entry of the narrative-collaborator response consumed by the
`analyzeStocks` variants (geminiService.ts lines 43-55, part_006 lines
54-68): ticker-keyed record with qualitative fields. -/
structure AiLite where
  ticker : String := ""
  moatType : String := ""
  reasoning : String := ""
  riskGrade : ℚ := 0
  banglaAdvice : String := ""
  redFlags : List String := []
  bucket : String := ""
  allocation : String := ""
  estimatedYield : ℚ := 0
deriving DecidableEq, Repr

/-- One entry of the narrative-collaborator response consumed by the
forensic engines (geminiService.ts lines 227-238, part_006 lines 219-235). -/
structure AiForensic where
  ticker : String := ""
  moatType : String := ""
  isMonopoly : Bool := false
  reasoning : String := ""
  riskGrade : ℚ := 0
  banglaAdvice : String := ""
  additionalFlags : List String := []
deriving DecidableEq, Repr

/-- Shape of `TitanAnalysis` as actually returned by the `analyzeStocks` variants
(geminiService.ts lines 100-116, part_006 lines 120-136). -/
structure AnalysisA where
  stock : StockData
  score : ℚ
  verdict : TitanVerdict
  moatType : String
  reasoning : String
  banglaAdvice : String
  riskGrade : ℚ
  redFlags : List String
  intrinsicValue : ℝ
  fairValue : ℝ
  yieldPct : ℚ
  allocation : String
  bucket : String
  debtRisk : DebtRisk
  metrics : Metrics

/-- Shape of `TitanAnalysis` as actually returned by the forensic engines
(geminiService.ts lines 259-270, part_006 lines 307-318). -/
structure AnalysisB where
  stock : StockData
  score : ℚ
  riskGrade : ℚ
  verdict : TitanVerdict
  valuationStatus : String
  moatType : String
  firstPrinciplesReasoning : String
  redFlags : List String
  banglaAdvice : String
  lossPreventionFirewall : Bool
deriving DecidableEq, Repr

namespace GS2
/-! Function `analyzeStockWithGemini`, src/services/geminiService.ts (second
document), lines 159-271.  Single-record forensic engine. -/

/-- Line 162: `const nav = stock.nav || 1;`. -/
def navS (s : StockData) : ℚ := if s.nav = 0 then 1 else s.nav

/-- Line 167: `const pe = eps !== 0 ? ltp / eps : 999;`. -/
def peCalc (s : StockData) : ℚ := if s.eps ≠ 0 then s.ltp / s.eps else 999

/-- Line 168: `const roe = nav !== 0 ? (eps / nav) * 100 : 0;`
(with `nav` already defaulted to 1 when 0). -/
def roeCalc (s : StockData) : ℚ :=
  if navS s ≠ 0 then s.eps / navS s * 100 else 0

/-- Line 169: `const debtToEquity = debt / (nav || 1);`. -/
def d2e (s : StockData) : ℚ := s.debt / (if navS s = 0 then 1 else navS s)

/-- Line 170: dividend yield; `dividendPercent` wins when truthy, else
the declared `dividendYield` (defaulted to 0). -/
def divYield (s : StockData) : ℚ :=
  if s.dividendPercent ≠ 0 then 10 * (s.dividendPercent / 100) * 100 / s.ltp
  else s.dividendYield

/-- Lines 177-189: the loss-prevention firewall; any of the three
triggers clears `firewallPassed`. -/
def firewallPassed (s : StockData) : Bool :=
  !decide (d2e s > 1 ∨ s.directorHolding < 15 ∨ s.eps ≤ 0)

/-- Lines 177-189: the deterministic red flags, in source push order
(leverage, ownership, profitability). -/
def detFlags (s : StockData) : List String :=
  (if d2e s > 1 then ["CRITICAL DEBT: Liability exceeds Assets. Terminal risk."] else []) ++
  (if s.directorHolding < 15 then ["OWNERSHIP FRAUD: Management has no skin in the game."] else []) ++
  (if s.eps ≤ 0 then ["NEGATIVE EPS: Company is burning capital, not compounding it."] else [])

/-- Lines 191-197: the debt and valuation score components, computed
unconditionally (the firewall only slashes the score later). -/
def baseScore (s : StockData) : ℚ :=
  (if s.debt = 0 then 50 else if d2e s < 0.3 then 30 else if d2e s < 0.5 then 10 else 0) +
  (if peCalc s < 10 then 20 else if peCalc s < 15 then 10 else 0)

/-- Line 243: `if (aiData.isMonopoly) score += 30;`. -/
def scoreWithMoat (s : StockData) (isMono : Bool) : ℚ :=
  baseScore s + (if isMono then 30 else 0)

/-- Lines 246-257: the final score; on firewall failure the score is
clamped to at most 20 (`score = Math.min(score, 20)`). -/
def finalScore (s : StockData) (isMono : Bool) : ℚ :=
  if firewallPassed s then scoreWithMoat s isMono
  else min (scoreWithMoat s isMono) 20

/-- Lines 246-257: the verdict decision table. -/
def verdict (s : StockData) (isMono : Bool) : TitanVerdict :=
  if ¬ firewallPassed s then .DESTROY
  else if scoreWithMoat s isMono ≥ 80 ∧ divYield s ≥ 7 ∧ s.directorHolding ≥ 30 then .GOD_MODE_BUY
  else if scoreWithMoat s isMono ≥ 60 then .BUY
  else if scoreWithMoat s isMono ≥ 40 then .HOLD
  else .AVOID

/-- Line 264: `valuationStatus: pe < 15 ? "Sosta" : pe > 25 ? "Dami" : "Fair"`. -/
def valuationStatus (s : StockData) : String :=
  if peCalc s < 15 then "Sosta" else if peCalc s > 25 then "Dami" else "Fair"

/-- Lines 259-270: the assembled `TitanAnalysis` result. -/
def analyzeStock (s : StockData) (ai : AiForensic) : AnalysisB :=
  { stock := { s with pe := peCalc s, roe := roeCalc s, dividendYield := divYield s, debtToEquity := d2e s }
    score := finalScore s ai.isMonopoly
    riskGrade := ai.riskGrade
    verdict := verdict s ai.isMonopoly
    valuationStatus := valuationStatus s
    moatType := ai.moatType
    firstPrinciplesReasoning := ai.reasoning
    redFlags := detFlags s ++ ai.additionalFlags
    banglaAdvice := ai.banglaAdvice
    lossPreventionFirewall := firewallPassed s }

end GS2

namespace P6B
/-! Function `analyzeStocksWithGemini`, src/unnamed/part_006 (second document),
lines 186-320.  Batch forensic engine with the 50/30/20 weighting and
positional narrative matching. -/

/-- Line 241: the fallback narrative record used when
`aiResults[index]` is absent. -/
def defaultAi : AiForensic :=
  { moatType := "Unknown", isMonopoly := false, reasoning := "N/A",
    riskGrade := 5, banglaAdvice := "System Error." }

/-- Line 246: `const nav = stock.nav || 1;`. -/
def navS (s : StockData) : ℚ := if s.nav = 0 then 1 else s.nav

/-- Line 251: `const pe = eps !== 0 ? ltp / eps : 999;`. -/
def peCalc (s : StockData) : ℚ := if s.eps ≠ 0 then s.ltp / s.eps else 999

/-- Line 254: `const roe = (eps / nav) * 100;`. -/
def roeCalc (s : StockData) : ℚ := s.eps / navS s * 100

/-- Line 257: dividend yield, identical to the geminiService forensic
variant: the cash-dividend percentage wins when truthy. -/
def divYield (s : StockData) : ℚ :=
  if s.dividendPercent ≠ 0 then 10 * (s.dividendPercent / 100) * 100 / s.ltp
  else s.dividendYield

/-- Line 259: `const debtToEquity = debt / nav;`. -/
def d2e (s : StockData) : ℚ := s.debt / navS s

/-- Lines 266-280: the deterministic firewall; triggers are ownership,
leverage, profitability.  The exchange `category` field is never read. -/
def firewallPassed (s : StockData) : Bool :=
  !decide (s.directorHolding < 15 ∨ d2e s > 1 ∨ s.eps ≤ 0)

/-- Lines 266-280: deterministic red flags in source push order
(ownership, leverage, profitability). -/
def detFlags (s : StockData) : List String :=
  (if s.directorHolding < 15 then ["CRITICAL OWNERSHIP FAILURE: Director holding is below 15%. This is a shell trap. Management has zero skin in the game."] else []) ++
  (if d2e s > 1 then ["TERMINAL DEBT: Debt exceeds Net Assets. This company belongs to the bank, not you."] else []) ++
  (if s.eps ≤ 0 then ["ZERO PROFITABILITY: Negative or zero EPS. Pure capital destruction."] else [])

/-- Lines 282-290: the strict 50/30/20 weighted score. -/
def rawScore (s : StockData) (isMono : Bool) : ℚ :=
  (if s.debt = 0 then 50 else 0) +
  (if isMono then 30 else 0) +
  (if peCalc s < 10 then 20 else 0)

/-- Lines 292-303: final score; a firewall failure zeroes it
(`score = 0; // Destroyed assets carry zero value`). -/
def finalScore (s : StockData) (isMono : Bool) : ℚ :=
  if firewallPassed s then rawScore s isMono else 0

/-- Lines 292-303: the verdict decision table. -/
def verdict (s : StockData) (isMono : Bool) : TitanVerdict :=
  if ¬ firewallPassed s then .DESTROY
  else if rawScore s isMono ≥ 80 then .GOD_MODE_BUY
  else if rawScore s isMono ≥ 50 then .BUY
  else if rawScore s isMono ≥ 30 then .HOLD
  else .AVOID

/-- Line 312: same valuation label as the geminiService forensic variant. -/
def valuationStatus (s : StockData) : String :=
  if peCalc s < 15 then "Sosta" else if peCalc s > 25 then "Dami" else "Fair"

/-- Lines 240-319: the per-record body of the `stocks.map` callback,
with the narrative entry for this record already selected. -/
def analyzeOne (s : StockData) (ai : AiForensic) : AnalysisB :=
  { stock := { s with pe := peCalc s, roe := roeCalc s, dividendYield := divYield s, debtToEquity := d2e s }
    score := finalScore s ai.isMonopoly
    riskGrade := ai.riskGrade
    verdict := verdict s ai.isMonopoly
    valuationStatus := valuationStatus s
    moatType := ai.moatType
    firstPrinciplesReasoning := ai.reasoning
    redFlags := detFlags s ++ ai.additionalFlags
    banglaAdvice := ai.banglaAdvice
    lossPreventionFirewall := firewallPassed s }

/-- Positional pairing of raw records with narrative entries, tracking
the running index (`aiResults[index] || defaultAi`, line 241). -/
def analyzeAux (ai : List AiForensic) : Nat → List StockData → List AnalysisB
  | _, [] => []
  | i, s :: rest => analyzeOne s ((ai[i]?).getD defaultAi) :: analyzeAux ai (i + 1) rest

/-- Lines 240-319: `stocks.map((stock, index) => ...)`. -/
def analyzeStocksWithGemini (stocks : List StockData) (ai : List AiForensic) : List AnalysisB :=
  analyzeAux ai 0 stocks

end P6B

namespace GS1
/-! Function `analyzeStocks`, src/services/geminiService.ts (first document),
lines 19-122.  Batch engine with ticker-keyed narrative matching. -/

/-- Lines 62-71: the fallback narrative record used when no entry of
the narrative response matches this record's ticker. -/
def defaultAi : AiLite :=
  { moatType := "General", reasoning := "Calculating...", riskGrade := 5,
    banglaAdvice := "অপেক্ষা করুন।", redFlags := [], bucket := "Unknown",
    allocation := "0%", estimatedYield := 0 }

/-- Line 62: `aiResults.find((r) => r.ticker === s.ticker) || default`. -/
def aiMatch (ai : List AiLite) (s : StockData) : AiLite :=
  (ai.find? (fun r => r.ticker == s.ticker)).getD defaultAi

/-- Line 73: `const pe = s.eps > 0 ? s.ltp / s.eps : 0;`. -/
def peCalc (s : StockData) : ℚ := if s.eps > 0 then s.ltp / s.eps else 0

/-- Line 74: `const roe = s.nav > 0 ? (s.eps / s.nav) * 100 : 0;`. -/
def roeCalc (s : StockData) : ℚ := if s.nav > 0 then s.eps / s.nav * 100 else 0

/-- Line 75: `const d2e = s.nav > 0 ? s.debt / (s.nav * 100) : 0;`. -/
def d2e (s : StockData) : ℚ := if s.nav > 0 then s.debt / (s.nav * 100) else 0

/-- Line 76: the Graham-style intrinsic value,
`(s.eps > 0 && s.nav > 0) ? Math.sqrt(22.5 * s.eps * s.nav) : 0`. -/
noncomputable def intrinsicValue (s : StockData) : ℝ :=
  if 0 < s.eps ∧ 0 < s.nav then Real.sqrt (22.5 * s.eps * s.nav) else 0

/-- Line 110: `fairValue: intrinsicValue > 0 ? intrinsicValue : s.ltp * 0.9`. -/
noncomputable def fairValue (s : StockData) : ℝ :=
  if intrinsicValue s > 0 then intrinsicValue s else (s.ltp : ℝ) * 0.9

/-- Lines 78-81: the debt-risk bucket (1.2 / 0.8 / 0.4 cutoffs). -/
def debtRisk (s : StockData) : DebtRisk :=
  if d2e s > 1.2 then .TOXIC
  else if d2e s > 0.8 then .HIGH
  else if d2e s > 0.4 then .MEDIUM
  else .LOW

/-- Line 85: `if (s.eps <= 0 || s.directorHolding < 20 || d2e > 1.5)
firewallFailed = true;`. -/
def firewallFailed (s : StockData) : Bool :=
  decide (s.eps ≤ 0 ∨ s.directorHolding < 20 ∨ d2e s > 1.5)

/-- Lines 87-92: the weighted score, computed only when the firewall
stands (otherwise the score stays 0). -/
def score (s : StockData) : ℚ :=
  if firewallFailed s then 0
  else
    (if roeCalc s > 20 then 40 else if roeCalc s > 15 then 30 else 15) +
    (if peCalc s > 0 ∧ peCalc s < 12 then 30 else if peCalc s < 18 then 15 else 5) +
    (if s.directorHolding > 50 then 20 else 10) +
    (if debtRisk s = .LOW then 10 else 0)

/-- Lines 94-98: the verdict decision table (80 / 60 / 40 cutoffs). -/
def verdict (s : StockData) : TitanVerdict :=
  if firewallFailed s then .DESTROY
  else if score s ≥ 80 then .GOD_MODE_BUY
  else if score s ≥ 60 then .BUY
  else if score s ≥ 40 then .HOLD
  else .AVOID

/-- Line 111: `yield: s.dividend ? ... : (aiMatch.estimatedYield || 0)`.
`StockData` (src/types.ts) has no `dividend` property, so the condition
is always falsy and the narrative estimate is always used. -/
def yieldPct (ai : AiLite) : ℚ := ai.estimatedYield

/-- Lines 61-117: the per-record body of the `stocks.map` callback. -/
noncomputable def analyzeOne (s : StockData) (ai : List AiLite) : AnalysisA :=
  { stock := s
    score := score s
    verdict := verdict s
    moatType := (aiMatch ai s).moatType
    reasoning := (aiMatch ai s).reasoning
    banglaAdvice := (aiMatch ai s).banglaAdvice
    riskGrade := (aiMatch ai s).riskGrade
    redFlags := (aiMatch ai s).redFlags
    intrinsicValue := intrinsicValue s
    fairValue := fairValue s
    yieldPct := yieldPct (aiMatch ai s)
    allocation := (aiMatch ai s).allocation
    bucket := (aiMatch ai s).bucket
    debtRisk := debtRisk s
    metrics := { pe := peCalc s, roe := roeCalc s, debtToEquity := d2e s } }

/-- Lines 61-117: `stocks.map((s) => ...)`. -/
noncomputable def analyzeStocks (stocks : List StockData) (ai : List AiLite) : List AnalysisA :=
  stocks.map (fun s => analyzeOne s ai)

end GS1

namespace P6A
/-! Function `analyzeStocks`, src/unnamed/part_006 (first document), lines
28-142.  Batch engine variant with a 25% ownership floor. -/

/-- Lines 75-84: the fallback narrative record. -/
def defaultAi : AiLite :=
  { moatType := "Unknown", reasoning := "Data synthesis in progress.", riskGrade := 5,
    banglaAdvice := "ফান্ডামেন্টাল তথ্য যাচাই করুন।", redFlags := [], bucket := "Unknown",
    allocation := "0%", estimatedYield := 0 }

/-- Line 75: `aiResults.find((r) => r.ticker === s.ticker) || default`. -/
def aiMatch (ai : List AiLite) (s : StockData) : AiLite :=
  (ai.find? (fun r => r.ticker == s.ticker)).getD defaultAi

/-- Line 87: `const pe = s.eps > 0 ? s.ltp / s.eps : 0;`. -/
def peCalc (s : StockData) : ℚ := if s.eps > 0 then s.ltp / s.eps else 0

/-- Line 88: `const roe = s.nav > 0 ? (s.eps / s.nav) * 100 : 0;`. -/
def roeCalc (s : StockData) : ℚ := if s.nav > 0 then s.eps / s.nav * 100 else 0

/-- Line 89: `const d2e = s.nav > 0 ? s.debt / (s.nav * 100) : 0;`. -/
def d2e (s : StockData) : ℚ := if s.nav > 0 then s.debt / (s.nav * 100) else 0

/-- Line 92: the Graham number,
`(s.eps > 0 && s.nav > 0) ? Math.sqrt(22.5 * s.eps * s.nav) : 0`. -/
noncomputable def grahamValue (s : StockData) : ℝ :=
  if 0 < s.eps ∧ 0 < s.nav then Real.sqrt (22.5 * s.eps * s.nav) else 0

/-- Line 130: `fairValue: grahamValue > 0 ? grahamValue : s.ltp * 0.9`. -/
noncomputable def fairValue (s : StockData) : ℝ :=
  if grahamValue s > 0 then grahamValue s else (s.ltp : ℝ) * 0.9

/-- Lines 94-97: the debt-risk bucket (1.2 / 0.7 / 0.3 cutoffs). -/
def debtRisk (s : StockData) : DebtRisk :=
  if d2e s > 1.2 then .TOXIC
  else if d2e s > 0.7 then .HIGH
  else if d2e s > 0.3 then .MEDIUM
  else .LOW

/-- Lines 102-105: the firewall rules (profitability, 25% ownership
floor, leverage). -/
def firewallFailed (s : StockData) : Bool :=
  decide (s.eps ≤ 0 ∨ s.directorHolding < 25 ∨ d2e s > 1.5)

/-- Lines 107-112: the weighted score, computed only when the firewall
stands. -/
def score (s : StockData) : ℚ :=
  if firewallFailed s then 0
  else
    (if roeCalc s > 15 then 40 else if roeCalc s > 10 then 20 else 0) +
    (if peCalc s > 0 ∧ peCalc s < 15 then 30 else if peCalc s < 22 then 15 else 0) +
    (if s.directorHolding > 40 then 20 else 10) +
    (if debtRisk s = .LOW then 10 else 0)

/-- Lines 114-118: the verdict decision table (75 / 55 / 35 cutoffs). -/
def verdict (s : StockData) : TitanVerdict :=
  if firewallFailed s then .DESTROY
  else if score s ≥ 75 then .GOD_MODE_BUY
  else if score s ≥ 55 then .BUY
  else if score s ≥ 35 then .HOLD
  else .AVOID

/-- Lines 74-137: the per-record body of the `stocks.map` callback. -/
noncomputable def analyzeOne (s : StockData) (ai : List AiLite) : AnalysisA :=
  { stock := s
    score := score s
    verdict := verdict s
    moatType := (aiMatch ai s).moatType
    reasoning := (aiMatch ai s).reasoning
    banglaAdvice := (aiMatch ai s).banglaAdvice
    riskGrade := (aiMatch ai s).riskGrade
    redFlags := (aiMatch ai s).redFlags
    intrinsicValue := grahamValue s
    fairValue := fairValue s
    yieldPct := (aiMatch ai s).estimatedYield
    allocation := (aiMatch ai s).allocation
    bucket := (aiMatch ai s).bucket
    debtRisk := debtRisk s
    metrics := { pe := peCalc s, roe := roeCalc s, debtToEquity := d2e s } }

/-- Lines 74-137: `stocks.map((s) => ...)`. -/
noncomputable def analyzeStocks (stocks : List StockData) (ai : List AiLite) : List AnalysisA :=
  stocks.map (fun s => analyzeOne s ai)

end P6A

/-! ### The presentation-layer sort

App.tsx line 44 / line 244 (and the part_000..part_005 variants) sort
the engine output with `results.sort((a, b) => b.score - a.score)`.
`Array.prototype.sort` is stable (ECMAScript 2019), so this is a stable
sort by score descending; it is embedded as a stable insertion sort. -/

/-- Insert `x` into `l`, skipping exactly the elements with strictly
greater score, so equal-score elements already in `l` stay behind `x`
only if they came later in the original list. -/
def insertScore (x : AnalysisB) : List AnalysisB → List AnalysisB
  | [] => [x]
  | y :: ys => if x.score < y.score then y :: insertScore x ys else x :: y :: ys

/-- Stable sort by score descending, the embedding of
`results.sort((a, b) => b.score - a.score)`. -/
def sortScoreDesc : List AnalysisB → List AnalysisB
  | [] => []
  | x :: xs => insertScore x (sortScoreDesc xs)

/-- The audited pipeline of App.tsx lines 243-244: run the batch
forensic engine, then sort by score descending. -/
def titanPipeline (stocks : List StockData) (ai : List AiForensic) : List AnalysisB :=
  sortScoreDesc (P6B.analyzeStocksWithGemini stocks ai)

/-! ### Helper lemmas about the stable sort and the batch fold -/

/-- Every element of an insertion is the inserted element or an original one. -/
theorem mem_insertScore {a x : AnalysisB} : ∀ {l : List AnalysisB},
    a ∈ insertScore x l ↔ a = x ∨ a ∈ l
  | [] => by simp [insertScore]
  | y :: ys => by
    by_cases h : x.score < y.score
    · simp only [insertScore, if_pos h, List.mem_cons, mem_insertScore (l := ys)]
      tauto
    · simp only [insertScore, if_neg h, List.mem_cons]

/-- Insertion preserves length (plus one). -/
theorem length_insertScore (x : AnalysisB) : ∀ (l : List AnalysisB),
    (insertScore x l).length = l.length + 1
  | [] => rfl
  | y :: ys => by
    by_cases h : x.score < y.score
    · simp [insertScore, if_pos h, length_insertScore x ys]
    · simp [insertScore, if_neg h]

/-- Sorting preserves length. -/
theorem length_sortScoreDesc : ∀ (l : List AnalysisB),
    (sortScoreDesc l).length = l.length
  | [] => rfl
  | x :: xs => by
    simp [sortScoreDesc, length_insertScore, length_sortScoreDesc xs]

/-- Insertion into a score-descending list keeps it score-descending. -/
theorem pairwise_insertScore {x : AnalysisB} : ∀ {l : List AnalysisB},
    l.Pairwise (fun a b => b.score ≤ a.score) →
    (insertScore x l).Pairwise (fun a b => b.score ≤ a.score)
  | [], _ => by simp [insertScore]
  | y :: ys, h => by
    rw [List.pairwise_cons] at h
    by_cases hxy : x.score < y.score
    · rw [insertScore, if_pos hxy, List.pairwise_cons]
      refine ⟨fun a ha => ?_, pairwise_insertScore h.2⟩
      rcases mem_insertScore.mp ha with rfl | ha
      · exact le_of_lt hxy
      · exact h.1 a ha
    · rw [insertScore, if_neg hxy, List.pairwise_cons]
      push_neg at hxy
      refine ⟨fun a ha => ?_, ?_⟩
      · rcases List.mem_cons.mp ha with rfl | ha
        · exact hxy
        · exact le_trans (h.1 a ha) hxy
      · rw [List.pairwise_cons]
        exact h

/-- The sort output is score-descending. -/
theorem pairwise_sortScoreDesc : ∀ (l : List AnalysisB),
    (sortScoreDesc l).Pairwise (fun a b => b.score ≤ a.score)
  | [] => by simp [sortScoreDesc]
  | x :: xs => pairwise_insertScore (pairwise_sortScoreDesc xs)

/-- Filtering any one score class through an insertion either prepends
the inserted element (when it is in the class) or leaves the class
untouched: the elements skipped by the insertion have strictly greater
scores. -/
theorem filter_insertScore (q : ℚ) (x : AnalysisB) : ∀ (l : List AnalysisB),
    (insertScore x l).filter (fun a => a.score == q) =
      if x.score = q then x :: l.filter (fun a => a.score == q)
      else l.filter (fun a => a.score == q)
  | [] => by
    by_cases hx : x.score = q <;> simp [insertScore, List.filter_cons, beq_iff_eq, hx]
  | y :: ys => by
    by_cases hxy : x.score < y.score
    · rw [insertScore, if_pos hxy]
      by_cases hx : x.score = q
      · have hy : ¬ (y.score = q) := by
          intro hy; rw [hx] at hxy; exact absurd (hy ▸ hxy) (lt_irrefl q)
        simp [List.filter_cons, beq_iff_eq, hx, hy, filter_insertScore q x ys]
      · by_cases hy : y.score = q <;>
          simp [List.filter_cons, beq_iff_eq, hx, hy, filter_insertScore q x ys]
    · rw [insertScore, if_neg hxy]
      by_cases hx : x.score = q <;> simp [List.filter_cons, beq_iff_eq, hx]

/-- Stability of the sort: inside every score class the original order
is preserved verbatim. -/
theorem filter_sortScoreDesc (q : ℚ) : ∀ (l : List AnalysisB),
    (sortScoreDesc l).filter (fun a => a.score == q) =
      l.filter (fun a => a.score == q)
  | [] => rfl
  | x :: xs => by
    rw [sortScoreDesc, filter_insertScore q x (sortScoreDesc xs),
      filter_sortScoreDesc q xs]
    by_cases hx : x.score = q <;> simp [List.filter_cons, beq_iff_eq, hx]

/-- Element `j` of the batch fold started at offset `i` pairs raw record
`j` with narrative entry `i + j`. -/
theorem P6B.analyzeAux_getElem? (ai : List AiForensic) :
    ∀ (stocks : List StockData) (i j : Nat),
    (P6B.analyzeAux ai i stocks)[j]? =
      (stocks[j]?).map (fun s => P6B.analyzeOne s ((ai[i + j]?).getD P6B.defaultAi))
  | [], i, j => by simp [P6B.analyzeAux]
  | s :: rest, i, 0 => by simp [P6B.analyzeAux]
  | s :: rest, i, j + 1 => by
    have := P6B.analyzeAux_getElem? ai rest (i + 1) j
    simp only [P6B.analyzeAux, List.getElem?_cons_succ, this]
    have harith : i + 1 + j = i + (j + 1) := by omega
    rw [harith]

/-- The batch fold produces one result per raw record. -/
theorem P6B.length_analyzeAux (ai : List AiForensic) :
    ∀ (stocks : List StockData) (i : Nat),
    (P6B.analyzeAux ai i stocks).length = stocks.length
  | [], _ => rfl
  | s :: rest, i => by
    simp [P6B.analyzeAux, P6B.length_analyzeAux ai rest (i + 1)]

/-- Every member of the batch fold is the analysis of some record and
some narrative entry. -/
theorem P6B.mem_analyzeAux (ai : List AiForensic) :
    ∀ (stocks : List StockData) (i : Nat) (a : AnalysisB),
    a ∈ P6B.analyzeAux ai i stocks → ∃ s c, a = P6B.analyzeOne s c
  | [], _, a, h => absurd h (List.not_mem_nil a)
  | s :: rest, i, a, h => by
    rcases List.mem_cons.mp h with rfl | h
    · exact ⟨s, _, rfl⟩
    · exact P6B.mem_analyzeAux ai rest (i + 1) a h

/-- The weighted score of the geminiService batch engine is additively
composed of nonnegative components and cannot leave [0, 100]. -/
theorem GS1_score_bounds (s : StockData) : 0 ≤ GS1.score s ∧ GS1.score s ≤ 100 := by
  unfold GS1.score
  split_ifs <;> norm_num

/-- The weighted score of the part_006 batch engine stays in [0, 100]. -/
theorem P6A_score_bounds (s : StockData) : 0 ≤ P6A.score s ∧ P6A.score s ≤ 100 := by
  unfold P6A.score
  split_ifs <;> norm_num

/-- The pre-clamp score of the forensic single-record engine stays in
[0, 100]. -/
theorem GS2_scoreWithMoat_bounds (s : StockData) (b : Bool) :
    0 ≤ GS2.scoreWithMoat s b ∧ GS2.scoreWithMoat s b ≤ 100 := by
  unfold GS2.scoreWithMoat GS2.baseScore
  split_ifs <;> norm_num

/-- The published score of the forensic single-record engine stays in
[0, 100] (the firewall clamp only lowers it). -/
theorem GS2_finalScore_bounds (s : StockData) (b : Bool) :
    0 ≤ GS2.finalScore s b ∧ GS2.finalScore s b ≤ 100 := by
  obtain ⟨h0, h1⟩ := GS2_scoreWithMoat_bounds s b
  unfold GS2.finalScore
  split_ifs
  · exact ⟨h0, h1⟩
  · exact ⟨le_min h0 (by norm_num), le_trans (min_le_right _ _) (by norm_num)⟩

/-- The 50/30/20 score of the part_006 forensic engine stays in [0, 100]. -/
theorem P6B_finalScore_bounds (s : StockData) (b : Bool) :
    0 ≤ P6B.finalScore s b ∧ P6B.finalScore s b ≤ 100 := by
  unfold P6B.finalScore P6B.rawScore
  split_ifs <;> norm_num

/-! ### Sample records used as concrete test vectors -/

/-- A fundamentally healthy record (positive earnings, debt-free, high
ownership) that carries the junk exchange category "Z". -/
def sampleHealthy : StockData :=
  { ticker := "ACME", ltp := 50, eps := 5, nav := 10, debt := 0,
    directorHolding := 50, category := "Z" }

/-- A loss-making record: every variant's firewall rejects it. -/
def sampleLoss : StockData := { ticker := "LOSS", ltp := 10, eps := -1 }

/-- A record with 10% sponsor ownership and otherwise healthy numbers. -/
def sampleOwn10 : StockData :=
  { ticker := "OWN10", ltp := 50, eps := 5, nav := 10, debt := 0, directorHolding := 10 }

/-- A record with 20% sponsor ownership and otherwise healthy numbers. -/
def sampleOwn20 : StockData :=
  { ticker := "OWN20", ltp := 50, eps := 5, nav := 10, debt := 0, directorHolding := 20 }

/-- A record carrying both a declared cash-dividend percentage and a
declared yield. -/
def sampleDiv : StockData :=
  { ticker := "DIV", ltp := 100, dividendPercent := 10, dividendYield := 5 }

/-- The Graham-number test vector of the spec: eps 4, nav 25. -/
def sampleGraham : StockData := { ticker := "GRAHAM", eps := 4, nav := 25 }

/-! ### Claims -/

/-- C1: for every record that fails a given engine's
capital-preservation firewall (any trigger), THAT engine's result has
verdict TERMINATE/DESTROY and a near-zero score: the geminiService
forensic engine clamps it to at most 20, the other three variants
hard-set it to 0.  The four implications are independent, so a record
failing only some variants' firewalls is still covered for those
variants. -/
theorem C1_firewall_destroy_slashed_score (s : StockData) (ai : AiForensic) (aiL : List AiLite) :
    (GS2.firewallPassed s = false →
      (GS2.analyzeStock s ai).verdict = TitanVerdict.DESTROY ∧ (GS2.analyzeStock s ai).score ≤ 20) ∧
    (P6B.firewallPassed s = false →
      (P6B.analyzeOne s ai).verdict = TitanVerdict.DESTROY ∧ (P6B.analyzeOne s ai).score = 0) ∧
    (GS1.firewallFailed s = true →
      (GS1.analyzeOne s aiL).verdict = TitanVerdict.DESTROY ∧ (GS1.analyzeOne s aiL).score = 0) ∧
    (P6A.firewallFailed s = true →
      (P6A.analyzeOne s aiL).verdict = TitanVerdict.DESTROY ∧ (P6A.analyzeOne s aiL).score = 0) := by
  refine ⟨fun h2 => ⟨?_, ?_⟩, fun h4 => ⟨?_, ?_⟩, fun h1 => ⟨?_, ?_⟩, fun h3 => ⟨?_, ?_⟩⟩
  · simp [GS2.analyzeStock, GS2.verdict, h2]
  · simp only [GS2.analyzeStock, GS2.finalScore, h2]
    simp only [Bool.false_eq_true, if_false]
    exact min_le_right _ _
  · simp [P6B.analyzeOne, P6B.verdict, h4]
  · simp [P6B.analyzeOne, P6B.finalScore, h4]
  · simp [GS1.analyzeOne, GS1.verdict, h1]
  · simp [GS1.analyzeOne, GS1.score, h1]
  · simp [P6A.analyzeOne, P6A.verdict, h3]
  · simp [P6A.analyzeOne, P6A.score, h3]

/-- C1 witness: the loss-making sample fails every variant's firewall
and each per-engine implication fires, destroying it with a slashed
score. -/
theorem C1_firewall_destroy_slashed_score_witness :
    ((GS2.analyzeStock sampleLoss { }).verdict = TitanVerdict.DESTROY ∧
      (GS2.analyzeStock sampleLoss { }).score ≤ 20) ∧
    ((P6B.analyzeOne sampleLoss { }).verdict = TitanVerdict.DESTROY ∧
      (P6B.analyzeOne sampleLoss { }).score = 0) ∧
    ((GS1.analyzeOne sampleLoss []).verdict = TitanVerdict.DESTROY ∧
      (GS1.analyzeOne sampleLoss []).score = 0) ∧
    ((P6A.analyzeOne sampleLoss []).verdict = TitanVerdict.DESTROY ∧
      (P6A.analyzeOne sampleLoss []).score = 0) := by
  have h := C1_firewall_destroy_slashed_score sampleLoss { } []
  exact ⟨h.1 (by norm_num [GS2.firewallPassed, GS2.d2e, GS2.navS, sampleLoss]),
    h.2.1 (by decide), h.2.2.1 (by decide), h.2.2.2 (by decide)⟩

/-- C2: the score of every result produced by any of the four engines
lies in the closed interval [0, 100]. -/
theorem C2_score_within_bounds (s : StockData) (ai : AiForensic) (aiL : List AiLite)
    (stocks : List StockData) (aiB : List AiForensic) (a : AnalysisB) :
    (0 ≤ (GS1.analyzeOne s aiL).score ∧ (GS1.analyzeOne s aiL).score ≤ 100) ∧
    (0 ≤ (P6A.analyzeOne s aiL).score ∧ (P6A.analyzeOne s aiL).score ≤ 100) ∧
    (0 ≤ (GS2.analyzeStock s ai).score ∧ (GS2.analyzeStock s ai).score ≤ 100) ∧
    (a ∈ P6B.analyzeStocksWithGemini stocks aiB → 0 ≤ a.score ∧ a.score ≤ 100) := by
  refine ⟨?_, ?_, ?_, fun ha => ?_⟩
  · simpa [GS1.analyzeOne] using GS1_score_bounds s
  · simpa [P6A.analyzeOne] using P6A_score_bounds s
  · simpa [GS2.analyzeStock] using GS2_finalScore_bounds s ai.isMonopoly
  · obtain ⟨t, c, rfl⟩ := P6B.mem_analyzeAux aiB stocks 0 a ha
    simpa [P6B.analyzeOne] using P6B_finalScore_bounds t c.isMonopoly

/-- C2 witness: the bounds hold for the healthy sample record in every
engine, including a member of an actual batch run. -/
theorem C2_score_within_bounds_witness :
    (0 ≤ (GS1.analyzeOne sampleHealthy []).score ∧ (GS1.analyzeOne sampleHealthy []).score ≤ 100) ∧
    (0 ≤ (P6A.analyzeOne sampleHealthy []).score ∧ (P6A.analyzeOne sampleHealthy []).score ≤ 100) ∧
    (0 ≤ (GS2.analyzeStock sampleHealthy { }).score ∧ (GS2.analyzeStock sampleHealthy { }).score ≤ 100) ∧
    (0 ≤ (P6B.analyzeOne sampleHealthy P6B.defaultAi).score ∧
      (P6B.analyzeOne sampleHealthy P6B.defaultAi).score ≤ 100) := by
  have h := C2_score_within_bounds sampleHealthy { } [] [sampleHealthy] []
    (P6B.analyzeOne sampleHealthy P6B.defaultAi)
  exact ⟨h.1, h.2.1, h.2.2.1, h.2.2.2 (by simp [P6B.analyzeStocksWithGemini, P6B.analyzeAux])⟩

/-- C3 counterexample: a healthy category-Z record is not destroyed by
either forensic engine — no firewall rule reads the exchange category. -/
theorem C3_category_Z_counterexample :
    sampleHealthy.category = "Z" ∧
    (P6B.analyzeOne sampleHealthy P6B.defaultAi).verdict = TitanVerdict.BUY ∧
    (P6B.analyzeOne sampleHealthy P6B.defaultAi).verdict ≠ TitanVerdict.DESTROY ∧
    (GS2.analyzeStock sampleHealthy { }).verdict = TitanVerdict.BUY ∧
    (GS2.analyzeStock sampleHealthy { }).verdict ≠ TitanVerdict.DESTROY := by
  have hp : (P6B.analyzeOne sampleHealthy P6B.defaultAi).verdict = TitanVerdict.BUY := by
    norm_num [P6B.analyzeOne, P6B.verdict, P6B.firewallPassed, P6B.rawScore, P6B.peCalc,
      P6B.d2e, P6B.navS, P6B.defaultAi, sampleHealthy]
  have hg : (GS2.analyzeStock sampleHealthy { }).verdict = TitanVerdict.BUY := by
    norm_num [GS2.analyzeStock, GS2.verdict, GS2.firewallPassed, GS2.scoreWithMoat,
      GS2.baseScore, GS2.peCalc, GS2.d2e, GS2.navS, GS2.divYield, sampleHealthy]
  exact ⟨rfl, hp, by rw [hp]; decide, hg, by rw [hg]; decide⟩

/-- C3 amended: the exchange category (including "Z") never affects the
verdict; a category-Z record is destroyed exactly when the
ownership/leverage/profitability firewall fails. -/
theorem C3_category_ignored_by_firewall (s : StockData) (ai : AiForensic) (c : String)
    (_hz : s.category = "Z") :
    (P6B.analyzeOne { s with category := c } ai).verdict = (P6B.analyzeOne s ai).verdict ∧
    (GS2.analyzeStock { s with category := c } ai).verdict = (GS2.analyzeStock s ai).verdict ∧
    ((P6B.analyzeOne s ai).verdict = TitanVerdict.DESTROY ↔ P6B.firewallPassed s = false) ∧
    ((GS2.analyzeStock s ai).verdict = TitanVerdict.DESTROY ↔ GS2.firewallPassed s = false) := by
  refine ⟨rfl, rfl, ?_, ?_⟩
  · simp only [P6B.analyzeOne]
    cases hf : P6B.firewallPassed s
    · simp [P6B.verdict, hf]
    · simp only [P6B.verdict, hf]
      split_ifs <;> simp_all
  · simp only [GS2.analyzeStock]
    cases hf : GS2.firewallPassed s
    · simp [GS2.verdict, hf]
    · simp only [GS2.verdict, hf]
      split_ifs <;> simp_all

/-- C3 witness: instantiation of the amended claim at the healthy
category-Z sample. -/
theorem C3_category_ignored_by_firewall_witness :
    (P6B.analyzeOne { sampleHealthy with category := "B" } P6B.defaultAi).verdict =
      (P6B.analyzeOne sampleHealthy P6B.defaultAi).verdict ∧
    (GS2.analyzeStock { sampleHealthy with category := "B" } P6B.defaultAi).verdict =
      (GS2.analyzeStock sampleHealthy P6B.defaultAi).verdict ∧
    ((P6B.analyzeOne sampleHealthy P6B.defaultAi).verdict = TitanVerdict.DESTROY ↔
      P6B.firewallPassed sampleHealthy = false) ∧
    ((GS2.analyzeStock sampleHealthy P6B.defaultAi).verdict = TitanVerdict.DESTROY ↔
      GS2.firewallPassed sampleHealthy = false) :=
  C3_category_ignored_by_firewall sampleHealthy P6B.defaultAi "B" rfl

/-- C4: the audited pipeline (batch engine + score-descending sort)
returns exactly one result per input record, sorted by score in
non-increasing order, and stable: each score class keeps the engine
output's original relative order verbatim. -/
theorem C4_pipeline_sorted_stable (stocks : List StockData) (ai : List AiForensic) :
    (titanPipeline stocks ai).length = stocks.length ∧
    (titanPipeline stocks ai).Pairwise (fun a b => b.score ≤ a.score) ∧
    ∀ q : ℚ, (titanPipeline stocks ai).filter (fun a => a.score == q) =
      (P6B.analyzeStocksWithGemini stocks ai).filter (fun a => a.score == q) := by
  refine ⟨?_, pairwise_sortScoreDesc _, fun q => filter_sortScoreDesc q _⟩
  rw [titanPipeline, length_sortScoreDesc, P6B.analyzeStocksWithGemini,
    P6B.length_analyzeAux]

/-- C5 counterexample: a record with negative earnings gets a NEGATIVE
price/earnings ratio (price divided by the negative eps), not the 999
sentinel, and is labelled cheap ("Sosta"), not expensive; the batch
variant maps the same record to 0. -/
theorem C5_negative_eps_counterexample :
    sampleLoss.eps ≤ 0 ∧
    GS2.peCalc sampleLoss = -10 ∧
    GS2.peCalc sampleLoss < 0 ∧
    GS2.peCalc sampleLoss ≠ 999 ∧
    (GS2.analyzeStock sampleLoss { }).valuationStatus = "Sosta" ∧
    GS1.peCalc sampleLoss = 0 := by
  refine ⟨by decide, ?_, ?_, ?_, ?_, ?_⟩ <;>
    norm_num [GS2.peCalc, GS2.analyzeStock, GS2.valuationStatus, GS1.peCalc, sampleLoss]

/-- C5 amended: only eps = 0 produces the 999 sentinel, and only in the
forensic engines; eps < 0 produces price/eps there, and the batch
engines map every eps ≤ 0 to 0 rather than a sentinel. -/
theorem C5_pe_sentinel_policy (s : StockData) (h : s.eps ≤ 0) :
    GS1.peCalc s = 0 ∧
    P6A.peCalc s = 0 ∧
    GS2.peCalc s = (if s.eps = 0 then 999 else s.ltp / s.eps) ∧
    P6B.peCalc s = (if s.eps = 0 then 999 else s.ltp / s.eps) := by
  have hng : ¬ (0 < s.eps) := not_lt.mpr h
  refine ⟨by simp [GS1.peCalc, hng], by simp [P6A.peCalc, hng], ?_, ?_⟩
  · by_cases hz : s.eps = 0 <;> simp [GS2.peCalc, hz]
  · by_cases hz : s.eps = 0 <;> simp [P6B.peCalc, hz]

/-- C5 witness: instantiation of the amended sentinel policy at the
loss-making sample. -/
theorem C5_pe_sentinel_policy_witness :
    GS1.peCalc sampleLoss = 0 ∧
    P6A.peCalc sampleLoss = 0 ∧
    GS2.peCalc sampleLoss = (if sampleLoss.eps = 0 then 999 else sampleLoss.ltp / sampleLoss.eps) ∧
    P6B.peCalc sampleLoss = (if sampleLoss.eps = 0 then 999 else sampleLoss.ltp / sampleLoss.eps) :=
  C5_pe_sentinel_policy sampleLoss (by decide)

/-- C6 counterexample: a record with 20% sponsor ownership and
otherwise pristine numbers (positive earnings, zero debt) is
nonetheless failed by the part_006 batch firewall, whose ownership
floor is 25, and is destroyed. -/
theorem C6_ownership20_counterexample :
    sampleOwn20.directorHolding = 20 ∧
    0 < sampleOwn20.eps ∧
    sampleOwn20.debt = 0 ∧
    P6A.d2e sampleOwn20 ≤ 1.5 ∧
    P6A.firewallFailed sampleOwn20 = true ∧
    P6A.verdict sampleOwn20 = TitanVerdict.DESTROY := by
  refine ⟨rfl, by norm_num [sampleOwn20], rfl,
    by norm_num [P6A.d2e, sampleOwn20], by decide, by decide⟩

/-- C6 amended: ownership 10 fails every variant's firewall; ownership
20 cannot trigger the ownership rule of the geminiService variants
(floors 15 and 20) or of the part_006 forensic variant (floor 15), but
the part_006 batch variant's floor is 25, so an ownership-20 record
always fails that firewall. -/
theorem C6_ownership_thresholds (s t : StockData)
    (h10 : s.directorHolding = 10) (h20 : t.directorHolding = 20) :
    (GS1.firewallFailed s = true ∧ GS2.firewallPassed s = false ∧
      P6A.firewallFailed s = true ∧ P6B.firewallPassed s = false) ∧
    P6A.firewallFailed t = true ∧
    (GS1.firewallFailed t = true → t.eps ≤ 0 ∨ GS1.d2e t > 1.5) ∧
    (GS2.firewallPassed t = false → GS2.d2e t > 1 ∨ t.eps ≤ 0) ∧
    (P6B.firewallPassed t = false → P6B.d2e t > 1 ∨ t.eps ≤ 0) := by
  refine ⟨⟨?_, ?_, ?_, ?_⟩, ?_, fun hf => ?_, fun hf => ?_, fun hf => ?_⟩
  · simp [GS1.firewallFailed, h10]
    norm_num
  · simp [GS2.firewallPassed, h10]
    norm_num
  · simp [P6A.firewallFailed, h10]
    norm_num
  · simp [P6B.firewallPassed, h10]
    norm_num
  · simp [P6A.firewallFailed, h20]
    norm_num
  · have hcond : t.eps ≤ 0 ∨ t.directorHolding < 20 ∨ GS1.d2e t > 1.5 := by
      simpa [GS1.firewallFailed] using hf
    rcases hcond with h | h | h
    · exact Or.inl h
    · rw [h20] at h
      exact absurd h (lt_irrefl 20)
    · exact Or.inr h
  · have hcond : GS2.d2e t > 1 ∨ t.directorHolding < 15 ∨ t.eps ≤ 0 := by
      simp only [GS2.firewallPassed, Bool.not_eq_false', decide_eq_true_eq] at hf
      exact hf
    rcases hcond with h | h | h
    · exact Or.inl h
    · rw [h20] at h
      norm_num at h
    · exact Or.inr h
  · have hcond : t.directorHolding < 15 ∨ P6B.d2e t > 1 ∨ t.eps ≤ 0 := by
      simp only [P6B.firewallPassed, Bool.not_eq_false', decide_eq_true_eq] at hf
      exact hf
    rcases hcond with h | h | h
    · rw [h20] at h
      norm_num at h
    · exact Or.inl h
    · exact Or.inr h

/-- C6 witness: instantiation of the amended ownership-threshold facts
at the 10%- and 20%-ownership samples. -/
theorem C6_ownership_thresholds_witness :
    (GS1.firewallFailed sampleOwn10 = true ∧ GS2.firewallPassed sampleOwn10 = false ∧
      P6A.firewallFailed sampleOwn10 = true ∧ P6B.firewallPassed sampleOwn10 = false) ∧
    P6A.firewallFailed sampleOwn20 = true ∧
    (GS1.firewallFailed sampleOwn20 = true → sampleOwn20.eps ≤ 0 ∨ GS1.d2e sampleOwn20 > 1.5) ∧
    (GS2.firewallPassed sampleOwn20 = false → GS2.d2e sampleOwn20 > 1 ∨ sampleOwn20.eps ≤ 0) ∧
    (P6B.firewallPassed sampleOwn20 = false → P6B.d2e sampleOwn20 > 1 ∨ sampleOwn20.eps ≤ 0) :=
  C6_ownership_thresholds sampleOwn10 sampleOwn20 rfl rfl

/-- C7: the Graham-style fair value of the part_006 batch engine equals
sqrt(22.5 × eps × nav) whenever both factors are positive, falls back to
price × 0.9 otherwise, and evaluates to sqrt(2250) ≈ 47.43 for the
spec's eps = 4, nav = 25 test vector. -/
theorem C7_graham_fair_value (s : StockData) :
    (0 < s.eps → 0 < s.nav → P6A.fairValue s = Real.sqrt (22.5 * s.eps * s.nav)) ∧
    (¬ (0 < s.eps ∧ 0 < s.nav) → P6A.fairValue s = (s.ltp : ℝ) * 0.9) ∧
    (s.eps = 4 → s.nav = 25 → P6A.fairValue s = Real.sqrt 2250 ∧
      47.43 < P6A.fairValue s ∧ P6A.fairValue s < 47.44) := by
  have key : ∀ (he : 0 < s.eps) (hn : 0 < s.nav),
      P6A.fairValue s = Real.sqrt (22.5 * s.eps * s.nav) := by
    intro he hn
    have he' : (0 : ℝ) < s.eps := by exact_mod_cast he
    have hn' : (0 : ℝ) < s.nav := by exact_mod_cast hn
    have harg : (0 : ℝ) < 22.5 * s.eps * s.nav := by
      have : (0 : ℝ) < 22.5 := by norm_num
      exact mul_pos (mul_pos this he') hn'
    have hg : P6A.grahamValue s = Real.sqrt (22.5 * s.eps * s.nav) := by
      rw [P6A.grahamValue, if_pos ⟨he, hn⟩]
    rw [P6A.fairValue, hg, if_pos (Real.sqrt_pos.mpr harg)]
  refine ⟨key, ?_, ?_⟩
  · intro hno
    have hg : P6A.grahamValue s = 0 := by rw [P6A.grahamValue, if_neg hno]
    rw [P6A.fairValue, hg, if_neg (lt_irrefl (0 : ℝ))]
  · intro he4 hn25
    have hfv : P6A.fairValue s = Real.sqrt 2250 := by
      rw [key (by rw [he4]; norm_num) (by rw [hn25]; norm_num), he4, hn25]
      norm_num
    refine ⟨hfv, ?_, ?_⟩
    · rw [hfv]
      rw [Real.lt_sqrt (by norm_num)]
      norm_num
    · rw [hfv]
      rw [Real.sqrt_lt' (by norm_num)]
      norm_num

/-- C7 witness: the fair value of the eps = 4, nav = 25 sample is
sqrt(2250), strictly between 47.43 and 47.44. -/
theorem C7_graham_fair_value_witness :
    P6A.fairValue sampleGraham = Real.sqrt 2250 ∧
    47.43 < P6A.fairValue sampleGraham ∧ P6A.fairValue sampleGraham < 47.44 :=
  (C7_graham_fair_value sampleGraham).2.2 rfl rfl

/-- C8 counterexample: a record carrying both a declared cash-dividend
percentage (10) and a declared yield (5) gets the face-value-derived
yield 1, not the declared yield 5 — the precedence is the reverse of
the claim. -/
theorem C8_yield_precedence_counterexample :
    sampleDiv.dividendPercent = 10 ∧
    sampleDiv.dividendYield = 5 ∧
    GS2.divYield sampleDiv = 1 ∧
    GS2.divYield sampleDiv ≠ sampleDiv.dividendYield ∧
    P6B.divYield sampleDiv = 1 := by
  refine ⟨rfl, rfl, by norm_num [GS2.divYield, sampleDiv],
    by norm_num [GS2.divYield, sampleDiv], by norm_num [P6B.divYield, sampleDiv]⟩

/-- C8 amended: the face-value derivation has precedence — whenever the
declared cash percentage is nonzero the yield is
10 × (percentage/100) × 100 ÷ price, even if a declared yield is
present; the declared yield field is used only when the percentage is
absent or zero. -/
theorem C8_yield_precedence (s : StockData) :
    (s.dividendPercent ≠ 0 →
      GS2.divYield s = 10 * (s.dividendPercent / 100) * 100 / s.ltp ∧
      P6B.divYield s = 10 * (s.dividendPercent / 100) * 100 / s.ltp) ∧
    (s.dividendPercent = 0 →
      GS2.divYield s = s.dividendYield ∧ P6B.divYield s = s.dividendYield) := by
  constructor <;> intro h <;> simp [GS2.divYield, P6B.divYield, h]

/-- C8 witness: instantiation of the amended precedence at the sample
with both dividend fields present. -/
theorem C8_yield_precedence_witness :
    GS2.divYield sampleDiv = 10 * (sampleDiv.dividendPercent / 100) * 100 / sampleDiv.ltp ∧
    P6B.divYield sampleDiv = 10 * (sampleDiv.dividendPercent / 100) * 100 / sampleDiv.ltp :=
  (C8_yield_precedence sampleDiv).1 (by decide)

/-- C9: when the narrative array is shorter than the record array (or
has no entry matching a record's ticker), every record still yields a
complete result with the conservative defaults; the embedding is total,
so no exception path exists. -/
theorem C9_missing_narrative_defaults (stocks : List StockData) (ai : List AiForensic)
    (j : Nat) (s : StockData) (aiL : List AiLite) (t : StockData)
    (hj : ai.length ≤ j) (hs : stocks[j]? = some s)
    (hmiss : ∀ r ∈ aiL, r.ticker ≠ t.ticker) :
    (P6B.analyzeStocksWithGemini stocks ai).length = stocks.length ∧
    (P6B.analyzeStocksWithGemini stocks ai)[j]? = some (P6B.analyzeOne s P6B.defaultAi) ∧
    (P6B.analyzeOne s P6B.defaultAi).moatType = "Unknown" ∧
    (P6B.analyzeOne s P6B.defaultAi).riskGrade = 5 ∧
    (P6B.analyzeOne s P6B.defaultAi).firstPrinciplesReasoning = "N/A" ∧
    (P6B.analyzeOne s P6B.defaultAi).banglaAdvice = "System Error." ∧
    (GS1.analyzeOne t aiL).moatType = "General" ∧
    (GS1.analyzeOne t aiL).reasoning = "Calculating..." ∧
    (GS1.analyzeOne t aiL).riskGrade = 5 ∧
    (GS1.analyzeOne t aiL).redFlags = [] ∧
    (GS1.analyzeOne t aiL).bucket = "Unknown" := by
  have hnone : ai[j]? = none := List.getElem?_eq_none hj
  have hget := P6B.analyzeAux_getElem? ai stocks 0 j
  rw [Nat.zero_add] at hget
  have hm : GS1.aiMatch aiL t = GS1.defaultAi := by
    have hfind : aiL.find? (fun r => r.ticker == t.ticker) = none := by
      apply List.find?_eq_none.mpr
      intro r hr
      simpa [beq_iff_eq] using hmiss r hr
    rw [GS1.aiMatch, hfind]
    rfl
  refine ⟨?_, ?_, rfl, rfl, rfl, rfl, ?_, ?_, ?_, ?_, ?_⟩
  · rw [P6B.analyzeStocksWithGemini]
    exact P6B.length_analyzeAux ai stocks 0
  · rw [P6B.analyzeStocksWithGemini, hget, hs, hnone]
    rfl
  · simp [GS1.analyzeOne, hm, GS1.defaultAi]
  · simp [GS1.analyzeOne, hm, GS1.defaultAi]
  · simp [GS1.analyzeOne, hm, GS1.defaultAi]
  · simp [GS1.analyzeOne, hm, GS1.defaultAi]
  · simp [GS1.analyzeOne, hm, GS1.defaultAi]

/-- C9 witness: a one-record batch with an empty narrative array yields
one complete, defaulted result in both cited engines. -/
theorem C9_missing_narrative_defaults_witness :
    (P6B.analyzeStocksWithGemini [sampleHealthy] []).length = ([sampleHealthy] : List StockData).length ∧
    (P6B.analyzeStocksWithGemini [sampleHealthy] [])[0]? =
      some (P6B.analyzeOne sampleHealthy P6B.defaultAi) ∧
    (P6B.analyzeOne sampleHealthy P6B.defaultAi).moatType = "Unknown" ∧
    (P6B.analyzeOne sampleHealthy P6B.defaultAi).riskGrade = 5 ∧
    (P6B.analyzeOne sampleHealthy P6B.defaultAi).firstPrinciplesReasoning = "N/A" ∧
    (P6B.analyzeOne sampleHealthy P6B.defaultAi).banglaAdvice = "System Error." ∧
    (GS1.analyzeOne sampleHealthy []).moatType = "General" ∧
    (GS1.analyzeOne sampleHealthy []).reasoning = "Calculating..." ∧
    (GS1.analyzeOne sampleHealthy []).riskGrade = 5 ∧
    (GS1.analyzeOne sampleHealthy []).redFlags = [] ∧
    (GS1.analyzeOne sampleHealthy []).bucket = "Unknown" :=
  C9_missing_narrative_defaults [sampleHealthy] [] 0 sampleHealthy [] sampleHealthy
    (by decide) rfl (by simp)

/-- C10: a result's verdict is TERMINATE/DESTROY exactly when its
firewall failed — no score or threshold path produces DESTROY for a
passing record, and a failing record never receives any other verdict. -/
theorem C10_destroy_iff_firewall (s : StockData) (ai : AiForensic) (aiL : List AiLite) :
    ((GS2.analyzeStock s ai).verdict = TitanVerdict.DESTROY ↔
      (GS2.analyzeStock s ai).lossPreventionFirewall = false) ∧
    ((P6B.analyzeOne s ai).verdict = TitanVerdict.DESTROY ↔
      (P6B.analyzeOne s ai).lossPreventionFirewall = false) ∧
    ((GS1.analyzeOne s aiL).verdict = TitanVerdict.DESTROY ↔ GS1.firewallFailed s = true) ∧
    ((P6A.analyzeOne s aiL).verdict = TitanVerdict.DESTROY ↔ P6A.firewallFailed s = true) := by
  refine ⟨?_, ?_, ?_, ?_⟩
  · simp only [GS2.analyzeStock]
    cases hf : GS2.firewallPassed s
    · simp [GS2.verdict, hf]
    · simp only [GS2.verdict, hf]
      split_ifs <;> simp_all
  · simp only [P6B.analyzeOne]
    cases hf : P6B.firewallPassed s
    · simp [P6B.verdict, hf]
    · simp only [P6B.verdict, hf]
      split_ifs <;> simp_all
  · simp only [GS1.analyzeOne]
    cases hf : GS1.firewallFailed s
    · simp only [GS1.verdict, hf]
      split_ifs <;> simp_all
    · simp [GS1.verdict, hf]
  · simp only [P6A.analyzeOne]
    cases hf : P6A.firewallFailed s
    · simp only [P6A.verdict, hf]
      split_ifs <;> simp_all
    · simp [P6A.verdict, hf]
